import Mathlib

/-!
Verification development for the FinAgent loan-underwriting backend.

The definitions below are a shallow embedding of
`backend/app/services/underwriting_service.py`,
`backend/app/agents/master_agent.py` and `backend/app/agents/tools.py`.
Python floats are modelled as exact rationals (ℚ); Python `round(x, k)`
(round half to even on decimals) is modelled by `rhe`; a Python function
that can raise is modelled with `Option`, where `none` stands for a raised
exception.
-/

/-- Round half to even to the nearest integer, the rounding used by Python
`round` and `format`. -/
def rhe (x : ℚ) : ℤ :=
  if x - ⌊x⌋ < 1 / 2 then ⌊x⌋
  else if 1 / 2 < x - ⌊x⌋ then ⌊x⌋ + 1
  else if ⌊x⌋ % 2 = 0 then ⌊x⌋ else ⌊x⌋ + 1

/-- Python `round(x, 2)`. -/
def round2 (x : ℚ) : ℚ := (rhe (x * 100) : ℚ) / 100

/-- Python `round(x, 3)`. -/
def round3 (x : ℚ) : ℚ := (rhe (x * 1000) : ℚ) / 1000

/-- Configuration fields read by `UnderwritingService.__init__` from
`app/config.py` `Settings`. -/
structure UWConfig where
  interest_rate : ℚ
  min_loan_amount : ℚ
  max_loan_amount : ℚ
  min_tenure : ℤ
  max_tenure : ℤ
  excellent_credit_score : ℤ
  good_credit_score : ℤ
  foir_threshold_a : ℚ
  foir_threshold_b : ℚ

/-- The default `Settings` of `app/config.py` with the annual interest rate
left as a parameter. -/
def cfgWithRate (R : ℚ) : UWConfig :=
  ⟨R, 50000, 5000000, 6, 60, 720, 680, 2 / 5, 1 / 2⟩

/-- The default `Settings` of `app/config.py`: rate 12.0, amounts 50,000 to
5,000,000, tenure 6 to 60 months, scores 720 and 680, FOIR 0.4 and 0.5. -/
def defaultConfig : UWConfig := cfgWithRate 12

/-- Digits of a natural number, grouped from the right in blocks of three
separated by commas, as Python format `:,` does. The input list is the
reversed digit list. -/
def chunk3 : List Char → List Char
  | c1 :: c2 :: c3 :: c4 :: rest => c1 :: c2 :: c3 :: ',' :: chunk3 (c4 :: rest)
  | l => l

/-- Python format `₹x:,.0f` (without the sign): round half to even to an
integer and insert thousands separators. -/
def fmtMoney (x : ℚ) : String :=
  let t := rhe x
  (if t < 0 then "-" else "") ++ ⟨(chunk3 (toString t.natAbs).data.reverse).reverse⟩

/-- Python format `x:.1%`: the value as a percentage with one decimal. -/
def pct1 (x : ℚ) : String :=
  let t := rhe (x * 1000)
  let a := t.natAbs
  (if t < 0 then "-" else "") ++ toString (a / 10) ++ "." ++ toString (a % 10) ++ "%"

/-- Outcome strings produced by `_make_decision`. -/
inductive Outcome
  | APPROVED
  | ADJUST
  | REJECTED
deriving DecidableEq

/-- The string stored under the "decision" key. -/
def outcomeStr : Outcome → String
  | .APPROVED => "APPROVED"
  | .ADJUST => "ADJUST"
  | .REJECTED => "REJECTED"

/-- The decision dictionary built by `_create_approval_response`,
`_create_adjustment_response` and `_create_rejection_response`. -/
structure Decision where
  decision : Outcome
  approved_amount : ℚ
  tenure_months : ℤ
  emi : ℚ
  interest_rate : ℚ
  credit_score : ℤ
  foir : ℚ
  risk_band : String
  explanation : String
  total_payable : ℚ
  processing_fee : ℚ
deriving DecidableEq

/-- Monthly rate `self.interest_rate / 12 / 100` as computed in
`_calculate_emi` and `_make_decision`. -/
def monthlyRate (cfg : UWConfig) : ℚ := cfg.interest_rate / 12 / 100

/-- `UnderwritingService._calculate_emi`. `none` models the
`ZeroDivisionError` Python raises when the denominator is zero. -/
def calc_emi (cfg : UWConfig) (principal : ℚ) (tenure_months : ℤ) : Option ℚ :=
  let monthly_rate := monthlyRate cfg
  if monthly_rate = 0 then
    if tenure_months = 0 then none
    else some (round2 (principal / (tenure_months : ℚ)))
  else
    let p := (1 + monthly_rate) ^ tenure_months
    if p - 1 = 0 then none
    else some (round2 (principal * monthly_rate * p / (p - 1)))

/-- `UnderwritingService._calculate_foir`. -/
def calc_foir (existing_emi new_emi monthly_income : ℚ) : ℚ :=
  if monthly_income ≤ 0 then 1
  else round3 ((existing_emi + new_emi) / monthly_income)

/-- `UnderwritingService._validate_loan_request`: empty string means valid. -/
def validate (cfg : UWConfig) (amount : ℚ) (tenure : ℤ) (monthly_income : ℚ) : String :=
  if amount < cfg.min_loan_amount then
    "Loan amount must be at least ₹" ++ fmtMoney cfg.min_loan_amount
  else if amount > cfg.max_loan_amount then
    "Loan amount cannot exceed ₹" ++ fmtMoney cfg.max_loan_amount
  else if tenure < cfg.min_tenure then
    "Tenure must be at least " ++ toString cfg.min_tenure ++ " months"
  else if tenure > cfg.max_tenure then
    "Tenure cannot exceed " ++ toString cfg.max_tenure ++ " months"
  else if monthly_income ≤ 0 then
    "Valid monthly income is required"
  else ""

/-- `UnderwritingService._create_approval_response`; `none` models a raise
of the inner `_calculate_emi` call. -/
def approval_response (cfg : UWConfig) (amount : ℚ) (tenure : ℤ) (credit_score : ℤ)
    (foir : ℚ) (risk_band explanat : String) : Option Decision :=
  (calc_emi cfg amount tenure).map fun emi =>
    ⟨.APPROVED, amount, tenure, emi, cfg.interest_rate, credit_score, foir, risk_band,
      explanat, round2 (emi * (tenure : ℚ)), round2 (amount * (2 / 100))⟩

/-- `UnderwritingService._create_adjustment_response`. -/
def adjustment_response (cfg : UWConfig) (adjusted_amount : ℚ) (tenure : ℤ)
    (credit_score : ℤ) (foir : ℚ) (risk_band explanat : String) : Option Decision :=
  (calc_emi cfg adjusted_amount tenure).map fun emi =>
    ⟨.ADJUST, adjusted_amount, tenure, emi, cfg.interest_rate, credit_score, foir, risk_band,
      explanat, round2 (emi * (tenure : ℚ)), round2 (adjusted_amount * (2 / 100))⟩

/-- `UnderwritingService._create_rejection_response`. The user id and the
requested amount are accepted but, as in the source, not used. -/
def rejection_response (cfg : UWConfig) (_requested_amount : ℚ) (tenure : ℤ)
    (credit_score : ℤ) (foir : ℚ) (explanat : String) : Decision :=
  ⟨.REJECTED, 0, tenure, 0, cfg.interest_rate, credit_score, foir, "C", explanat, 0, 0⟩

/-- Explanation string of the risk band A approval. -/
def explA (credit_score : ℤ) (foir : ℚ) : String :=
  "Approved! Excellent credit score (" ++ toString credit_score ++ ") and healthy FOIR (" ++
    pct1 foir ++ "). You qualify for the full amount with Risk Band A rating."

/-- Explanation string of the risk band B full approval. -/
def explB (credit_score : ℤ) (foir : ℚ) : String :=
  "Approved! Good credit score (" ++ toString credit_score ++ ") and acceptable FOIR (" ++
    pct1 foir ++ "). Risk Band B rating."

/-- Explanation string of the ADJUST outcome. -/
def explAdjust (credit_score : ℤ) (foir adjusted_amount requested_amount : ℚ) : String :=
  "Approved with adjustment! Your credit score (" ++ toString credit_score ++
    ") is good, but your FOIR (" ++ pct1 foir ++ ") is slightly high. We can approve ₹" ++
    fmtMoney adjusted_amount ++ " instead of ₹" ++ fmtMoney requested_amount ++
    " to maintain healthy FOIR. Risk Band: B."

/-- Explanation string of the rejection taken when the affordable amount is
below the minimum. -/
def explTooSmall (foir adjusted_amount : ℚ) : String :=
  "Your current FOIR (" ++ pct1 foir ++ ") is too high. Maximum affordable loan amount (₹" ++
    fmtMoney adjusted_amount ++ ") is below minimum requirement."

/-- Explanation string of the risk band C rejection, enumerating reasons. -/
def explBandC (cfg : UWConfig) (credit_score : ℤ) (foir : ℚ) : String :=
  let reasons :=
    (if credit_score < cfg.good_credit_score then
      ["credit score (" ++ toString credit_score ++ ") is below minimum requirement (" ++
        toString cfg.good_credit_score ++ ")"]
    else []) ++
    (if foir > cfg.foir_threshold_b then
      ["FOIR (" ++ pct1 foir ++ ") exceeds maximum threshold (" ++
        pct1 cfg.foir_threshold_b ++ ")"]
    else [])
  "Unfortunately, we cannot approve this loan because " ++
    String.intercalate " and " reasons ++ ". Please improve your credit profile and try again."

/-- Lines 234 to 250 of `_make_decision`: the maximum affordable EMI at
the strict FOIR ceiling and the loan amount it supports, by the inverted
amortization formula when the monthly rate is positive and by
`max_affordable_emi * tenure` otherwise, rounded to 2 decimals. -/
def adjusted_amount (cfg : UWConfig) (requested_tenure : ℤ)
    (monthly_income existing_emi : ℚ) : ℚ :=
  let max_affordable_emi := monthly_income * cfg.foir_threshold_a - existing_emi
  let monthly_rate := monthlyRate cfg
  round2 (
    if monthly_rate > 0 then
      max_affordable_emi * ((1 + monthly_rate) ^ requested_tenure - 1) /
        (monthly_rate * (1 + monthly_rate) ^ requested_tenure)
    else max_affordable_emi * (requested_tenure : ℚ))

/-- `UnderwritingService._make_decision`. -/
def make_decision (cfg : UWConfig) (credit_score : ℤ) (foir : ℚ) (requested_amount : ℚ)
    (requested_tenure : ℤ) (monthly_income existing_emi : ℚ) : Option Decision :=
  if credit_score ≥ cfg.excellent_credit_score ∧ foir ≤ cfg.foir_threshold_a then
    approval_response cfg requested_amount requested_tenure credit_score foir "A"
      (explA credit_score foir)
  else if credit_score ≥ cfg.good_credit_score ∧ foir ≤ cfg.foir_threshold_b then
    if foir > cfg.foir_threshold_a then
      let adjusted := adjusted_amount cfg requested_tenure monthly_income existing_emi
      if adjusted < cfg.min_loan_amount then
        some (rejection_response cfg requested_amount requested_tenure credit_score foir
          (explTooSmall foir adjusted))
      else
        adjustment_response cfg adjusted requested_tenure credit_score foir "B"
          (explAdjust credit_score foir adjusted requested_amount)
    else
      approval_response cfg requested_amount requested_tenure credit_score foir "B"
        (explB credit_score foir)
  else
    some (rejection_response cfg requested_amount requested_tenure credit_score foir
      (explBandC cfg credit_score foir))

/-- The user profile dictionary as read by `evaluate_application`: each
field may be absent (`dict.get` with a default). -/
structure UserProfile where
  monthly_income : Option ℚ
  existing_emi : Option ℚ
  mock_credit_score : Option ℤ

/-- `UnderwritingService.evaluate_application`; `none` models an uncaught
exception. -/
def evaluate_application (cfg : UWConfig) (p : UserProfile) (requested_amount : ℚ)
    (requested_tenure_months : ℤ) : Option Decision :=
  let monthly_income := p.monthly_income.getD 0
  let existing_emi := p.existing_emi.getD 0
  let credit_score := p.mock_credit_score.getD 650
  let validation_error := validate cfg requested_amount requested_tenure_months monthly_income
  if validation_error ≠ "" then
    some (rejection_response cfg requested_amount requested_tenure_months credit_score 0
      validation_error)
  else
    (calc_emi cfg requested_amount requested_tenure_months).bind fun emi =>
      let foir := calc_foir existing_emi emi monthly_income
      make_decision cfg credit_score foir requested_amount requested_tenure_months
        monthly_income existing_emi

/-- Boolean test that the first list is a leading segment of the second. -/
def startsWithL : List Char → List Char → Bool
  | [], _ => true
  | _ :: _, [] => false
  | p :: ps, c :: cs => p == c && startsWithL ps cs

/-- Boolean test that `pat` occurs contiguously somewhere in the list. -/
def containsL (pat : List Char) : List Char → Bool
  | [] => startsWithL pat []
  | c :: rest => startsWithL pat (c :: rest) || containsL pat rest

/-- Python `pat in s` on strings. -/
def strContains (s pat : String) : Bool := containsL pat.data s.data

/-- Python regex `\s` for the whitespace characters that can occur here. -/
def isSpaceChar (c : Char) : Bool := c = ' ' || c = '\t' || c = '\n' || c = '\r'

/-- Numeric value of a run of ASCII digits. -/
def charsToNat (l : List Char) : ℕ := l.foldl (fun acc c => 10 * acc + (c.toNat - 48)) 0

/-- Value of the first maximal run of decimal digits in the list: the group
captured by `re.search` with pattern `₹?\s*(\d+)` (the optional currency
symbol and spaces do not affect the captured group). -/
def firstDigitRunNat : List Char → Option ℕ
  | [] => none
  | c :: rest =>
    if c.isDigit then some (charsToNat (c :: rest.takeWhile Char.isDigit))
    else firstDigitRunNat rest

/-- Python `re.search` with pattern `(\d+)\s*month`, scanning left to
right; yields the value of the digit group of the first match. -/
def tenureScan : List Char → Option ℕ
  | [] => none
  | c :: rest =>
    if c.isDigit then
      if startsWithL "month".data ((rest.dropWhile Char.isDigit).dropWhile isSpaceChar) then
        some (charsToNat (c :: rest.takeWhile Char.isDigit))
      else tenureScan rest
    else tenureScan rest

/-- Python `user_message.replace(",", "")` of `master_agent.py` line 52. -/
def stripCommas (s : String) : String := ⟨s.data.filter (fun c => c != ',')⟩

/-- Python `str.lower()` as used here (ASCII case folding), structurally
recursive over the character list. -/
def strLower (s : String) : String := ⟨s.data.map Char.toLower⟩

/-- Line 49 of `master_agent.py`: the trigger heuristic deciding whether to
attempt extraction. -/
def triggerHeur (msg lower : String) : Bool :=
  strContains msg "₹" || strContains lower "lakh" || strContains lower "month" ||
    msg.data.any Char.isDigit

/-- Lines 51 to 64 of `master_agent.py`: extraction of amount and tenure,
succeeding only when both patterns match, with the lakh multiplier applied
when the word "lakh" occurs and the parsed amount is below 1000. -/
def extractTerms (msg : String) : Option (ℚ × ℤ) :=
  let lower := strLower msg
  match firstDigitRunNat (stripCommas msg).data, tenureScan lower.data with
  | some a, some t =>
    let amount : ℚ := (a : ℚ)
    let amount := if strContains lower "lakh" = true ∧ amount < 1000 then amount * 100000
      else amount
    some (amount, (t : ℤ))
  | _, _ => none

/-- Session dictionary fields used by `process_message_simple`. -/
structure SessionState where
  loan_decision : Option Decision
  current_step : String
deriving DecidableEq

/-- Update payload of `session_service.update_session` as issued here: a
decision under the "loan_decision" key and a step string under
"current_step". The tool stores the engine decision dictionary and the
master agent stores the tool result dictionary; both carry the same
decision data, modelled uniformly. -/
structure SessionUpdate where
  loan_decision : Decision
  current_step : String
deriving DecidableEq

/-- Payload of a successful `create_loan_application_func` call. -/
structure CreatePayload where
  loan_id : String
  approved_amount : ℚ
  emi : ℚ
  tenure_months : ℤ
deriving DecidableEq

/-- Modelled from the spec: the underwriting engine call inside
`run_underwriting_func` is `underwriting_service.evaluate_loan`, a method
absent from the source (the service only defines `evaluate_application`
with a different signature), so the engine call is modelled as a fallible
collaborator returning an UnderwritingDecision, per the spec contract
`evaluate(financials, request) -> UnderwritingDecision`; in the source as
written the call always raises `AttributeError`, the case
`engineRes = none`. The other fields give the outcomes of the remaining
collaborator calls of one turn: `none` in `getSession` and `profileFound`
models a raised exception, `some none` and `some false` a missing session
or profile; `toolUpdateOk` and `masterUpdateOk` say whether the two
`update_session` calls succeed; `createRes = none` models the failure JSON
of the creation tool, which catches its own exceptions. -/
structure Env where
  getSession : Option (Option SessionState)
  profileFound : Option Bool
  engineRes : Option Decision
  toolUpdateOk : Bool
  masterUpdateOk : Bool
  createRes : Option CreatePayload

/-- The dictionary returned by `process_message_simple`, extended with the
trace the verification needs: whether `create_loan_application_func` was
invoked, and which session updates were committed, in order. -/
structure ProcResult where
  reply : String
  decision_out : Option String
  loan_id : Option String
  createInvoked : Bool
  writes : List SessionUpdate
deriving DecidableEq

/-- The default welcome reply (straight quotes of the source rendered as
typographic quotes). -/
def welcomeReply : String :=
  "Hello! Welcome to FinAgent. 👋\n\nI can help you apply for a personal loan quickly and easily. Just tell me how much you need and for how long!\n\nFor example: ’I need ₹5,00,000 for 36 months’"

/-- The generic apology reply of the outer exception handler. -/
def apologyReply : String :=
  "I apologize, but there was an error processing your request. Please try again."

/-- Reply composed for an APPROVED decision in state 1. Numeric rendering
of the rate uses the rational printer rather than Python float printing. -/
def approvedReply (d : Decision) : String :=
  "🎉 Great news! Your loan of ₹" ++ fmtMoney d.approved_amount ++ " for " ++
    toString d.tenure_months ++ " months is APPROVED!\n\n💰 Monthly EMI: ₹" ++
    fmtMoney d.emi ++ "\n📊 Interest Rate: " ++ toString d.interest_rate ++
    "% p.a.\n\nWould you like me to generate your official sanction letter now?"

/-- Stage-appropriate reply for the decision returned by the tool. -/
def replyFor (d : Decision) : String :=
  match d.decision with
  | .APPROVED => approvedReply d
  | _ => d.explanation

/-- Reply composed after a successful sanction letter generation. -/
def sanctionReply (p : CreatePayload) : String :=
  "Perfect! Your sanction letter has been generated successfully! 🎉\n\n📄 Loan ID: " ++
    p.loan_id ++ "\n💰 Approved Amount: ₹" ++ fmtMoney p.approved_amount ++
    "\n📅 Tenure: " ++ toString p.tenure_months ++ " months\n💳 Monthly EMI: ₹" ++
    fmtMoney p.emi ++
    "\n\nYour sanction letter is valid for 7 days. Please visit any FinAgent branch with:\n• Original ID proof (Aadhaar/PAN/Passport)\n• Bank statements (last 6 months)\n• Salary slips (last 3 months)\n• This sanction letter\n\nWe’ll verify your documents and disburse the loan within 24 hours. Congratulations! 🎊"

/-- Affirmative vocabulary of state 2. -/
def acceptWords : List String := ["yes", "ok", "sure", "accept", "proceed", "generate"]

/-- Line 112 of `master_agent.py`: any affirmative word occurs in the
lowercased message. -/
def hasAcceptWord (lower : String) : Bool := acceptWords.any (fun w => strContains lower w)

/-- State 1 of `process_message_simple` (lines 47 to 109): on the trigger
heuristic, attempt extraction, run the underwriting tool, and on tool
success store the decision and return the stage reply; `none` means the
state produced no return and control falls through. The tool itself
returns a failure JSON (no return, no session write) when the profile
lookup raises or misses, when the engine call raises, or when its own
session update raises; after a successful tool call the master agent
performs its own session update, and if that raises the outer handler
returns the apology with the tool write already committed. -/
def state1Result (env : Env) (msg lower : String) : Option ProcResult :=
  if triggerHeur msg lower then
    match extractTerms msg with
    | some _ =>
      match env.profileFound with
      | none => none
      | some false => none
      | some true =>
        match env.engineRes with
        | none => none
        | some d =>
          if env.toolUpdateOk then
            let w : SessionUpdate := ⟨d, outcomeStr d.decision⟩
            if env.masterUpdateOk then
              some ⟨replyFor d, some (outcomeStr d.decision), none, false, [w, w]⟩
            else some ⟨apologyReply, none, none, false, [w]⟩
          else none
    | none => none
  else none

/-- State 2 and the default reply of `process_message_simple` (lines 111
to 166): on an affirmative word with a stored APPROVED or ADJUST decision,
invoke the creation tool; otherwise the welcome reply. -/
def stateTwoResult (env : Env) (session : SessionState) (lower : String) : ProcResult :=
  if hasAcceptWord lower then
    match session.loan_decision with
    | some d =>
      if d.decision = .APPROVED ∨ d.decision = .ADJUST then
        match env.createRes with
        | some p => ⟨sanctionReply p, some "APPROVED", some p.loan_id, true, []⟩
        | none => ⟨welcomeReply, none, none, true, []⟩
      else ⟨welcomeReply, none, none, false, []⟩
    | none => ⟨welcomeReply, none, none, false, []⟩
  else ⟨welcomeReply, none, none, false, []⟩

/-- `MasterAgent.process_message_simple`. The outer `try` catches every
exception raised by a collaborator and yields the apology reply;
exceptions inside the two tools are caught by the tools themselves, whose
failure results make state 1 or state 2 fall through to the default. -/
def process (env : Env) (msg : String) : ProcResult :=
  match env.getSession with
  | none => ⟨apologyReply, none, none, false, []⟩
  | some sessOpt =>
    let lower := strLower msg
    match state1Result env msg lower with
    | some res => res
    | none => stateTwoResult env (sessOpt.getD ⟨none, ""⟩) lower

theorem rhe_le (x : ℚ) : (rhe x : ℚ) ≤ x + 1 / 2 := by
  have h1 : (⌊x⌋ : ℚ) ≤ x := Int.floor_le x
  have h2 : x < ⌊x⌋ + 1 := Int.lt_floor_add_one x
  unfold rhe
  split_ifs <;> push_cast <;> linarith

theorem rhe_ge (x : ℚ) : x - 1 / 2 ≤ (rhe x : ℚ) := by
  have h1 : (⌊x⌋ : ℚ) ≤ x := Int.floor_le x
  have h2 : x < ⌊x⌋ + 1 := Int.lt_floor_add_one x
  unfold rhe
  split_ifs <;> push_cast <;> linarith

theorem rhe_le_floor_add_one (x : ℚ) : rhe x ≤ ⌊x⌋ + 1 := by
  unfold rhe
  split_ifs <;> omega

theorem floor_le_rhe (x : ℚ) : ⌊x⌋ ≤ rhe x := by
  unfold rhe
  split_ifs <;> omega

theorem rhe_mono {x y : ℚ} (h : x ≤ y) : rhe x ≤ rhe y := by
  have hf : ⌊x⌋ ≤ ⌊y⌋ := Int.floor_le_floor h
  rcases eq_or_lt_of_le hf with he | hl
  · unfold rhe
    rw [← he]
    split_ifs <;> first | omega | linarith
  · have h1 := rhe_le_floor_add_one x
    have h2 := floor_le_rhe y
    omega

theorem round2_le (x : ℚ) : round2 x ≤ x + 1 / 200 := by
  have := rhe_le (x * 100)
  unfold round2
  linarith

theorem round2_ge (x : ℚ) : x - 1 / 200 ≤ round2 x := by
  have := rhe_ge (x * 100)
  unfold round2
  linarith

theorem round2_mono {x y : ℚ} (h : x ≤ y) : round2 x ≤ round2 y := by
  have h1 : rhe (x * 100) ≤ rhe (y * 100) := rhe_mono (by linarith)
  have h2 : ((rhe (x * 100) : ℤ) : ℚ) ≤ ((rhe (y * 100) : ℤ) : ℚ) := by exact_mod_cast h1
  unfold round2
  linarith

theorem round3_le (x : ℚ) : round3 x ≤ x + 1 / 2000 := by
  have := rhe_le (x * 1000)
  unfold round3
  linarith

theorem round3_ge (x : ℚ) : x - 1 / 2000 ≤ round3 x := by
  have := rhe_ge (x * 1000)
  unfold round3
  linarith

theorem round3_mono {x y : ℚ} (h : x ≤ y) : round3 x ≤ round3 y := by
  have h1 : rhe (x * 1000) ≤ rhe (y * 1000) := rhe_mono (by linarith)
  have h2 : ((rhe (x * 1000) : ℤ) : ℚ) ≤ ((rhe (y * 1000) : ℤ) : ℚ) := by exact_mod_cast h1
  unfold round3
  linarith

theorem validate_eq_empty {R a y : ℚ} {t : ℤ} (h1 : 50000 ≤ a) (h2 : a ≤ 5000000)
    (h3 : 6 ≤ t) (h4 : t ≤ 60) (h5 : 0 < y) : validate (cfgWithRate R) a t y = "" := by
  unfold validate cfgWithRate
  dsimp only
  split_ifs <;> first | rfl | (exfalso; first | linarith | omega)

theorem validate_empty_elim {R a y : ℚ} {t : ℤ}
    (h : validate (cfgWithRate R) a t y = "") :
    50000 ≤ a ∧ a ≤ 5000000 ∧ 6 ≤ t ∧ t ≤ 60 ∧ 0 < y := by
  unfold validate cfgWithRate at h
  dsimp only at h
  split_ifs at h with v1 v2 v3 v4 v5
  · exact absurd h (by with_unfolding_all decide)
  · exact absurd h (by with_unfolding_all decide)
  · exact absurd h (by with_unfolding_all decide)
  · exact absurd h (by with_unfolding_all decide)
  · exact absurd h (by with_unfolding_all decide)
  · exact ⟨by linarith, by linarith, by omega, by omega, by linarith⟩

theorem monthlyRate_cfgWithRate (R : ℚ) : monthlyRate (cfgWithRate R) = R / 12 / 100 := rfl

theorem monthlyRate_nonneg {R : ℚ} (hR : 0 ≤ R) : 0 ≤ monthlyRate (cfgWithRate R) := by
  rw [monthlyRate_cfgWithRate]
  positivity

theorem one_lt_zpow_rate {R : ℚ} (hr : 0 < monthlyRate (cfgWithRate R)) {t : ℤ}
    (ht : 0 < t) : 1 < (1 + monthlyRate (cfgWithRate R)) ^ t :=
  one_lt_zpow₀ (by linarith) ht

theorem calc_emi_eq_of_rate_pos {R a : ℚ} {t : ℤ}
    (hr : 0 < monthlyRate (cfgWithRate R)) (ht : 0 < t) :
    calc_emi (cfgWithRate R) a t =
      some (round2 (a * monthlyRate (cfgWithRate R) *
        (1 + monthlyRate (cfgWithRate R)) ^ t /
        ((1 + monthlyRate (cfgWithRate R)) ^ t - 1))) := by
  have hq := one_lt_zpow_rate hr ht
  have hne : (1 + monthlyRate (cfgWithRate R)) ^ t - 1 ≠ 0 :=
    sub_ne_zero.mpr (ne_of_gt hq)
  unfold calc_emi
  rw [if_neg (by exact ne_of_gt hr), if_neg hne]

theorem calc_emi_eq_of_rate_zero {R a : ℚ} {t : ℤ}
    (hr : monthlyRate (cfgWithRate R) = 0) (ht : t ≠ 0) :
    calc_emi (cfgWithRate R) a t = some (round2 (a / (t : ℚ))) := by
  unfold calc_emi
  rw [if_pos hr, if_neg ht]

theorem calc_emi_some {R a : ℚ} {t : ℤ} (hR : 0 ≤ R) (ht : 0 < t) :
    ∃ em, calc_emi (cfgWithRate R) a t = some em := by
  rcases eq_or_lt_of_le (monthlyRate_nonneg hR) with h0 | h0
  · exact ⟨_, calc_emi_eq_of_rate_zero h0.symm (by omega)⟩
  · exact ⟨_, calc_emi_eq_of_rate_pos h0 ht⟩

theorem monthlyRate_default : monthlyRate defaultConfig = 1 / 100 := by
  unfold defaultConfig
  rw [monthlyRate_cfgWithRate]
  norm_num

theorem calc_emi_default_eq {a : ℚ} {t : ℤ} (ht : 0 < t) :
    calc_emi defaultConfig a t =
      some (round2 (a * (1 / 100) * (101 / 100) ^ t / ((101 / 100) ^ t - 1))) := by
  have h := calc_emi_eq_of_rate_pos (R := 12) (a := a) (t := t)
    (by rw [monthlyRate_cfgWithRate]; norm_num) ht
  unfold defaultConfig
  rw [h, monthlyRate_cfgWithRate]
  norm_num

theorem calc_emi_default_mono {a1 a2 : ℚ} {t : ℤ} (ht : 0 < t) (h : a1 ≤ a2) :
    (calc_emi defaultConfig a1 t).getD 0 ≤ (calc_emi defaultConfig a2 t).getD 0 := by
  rw [calc_emi_default_eq ht, calc_emi_default_eq ht]
  simp only [Option.getD_some]
  have hq : (1 : ℚ) < (101 / 100) ^ t := one_lt_zpow₀ (by norm_num) ht
  have hq0 : (0 : ℚ) < (101 / 100) ^ t := zpow_pos (by norm_num) t
  apply round2_mono
  apply div_le_div_of_nonneg_right
  · have := mul_le_mul_of_nonneg_right h (show (0:ℚ) ≤ 1 / 100 by norm_num)
    exact mul_le_mul_of_nonneg_right this (le_of_lt hq0)
  · linarith

theorem make_decision_bandA {cfg : UWConfig} {cs : ℤ} {foir a y e : ℚ} {t : ℤ}
    (h1 : cs ≥ cfg.excellent_credit_score) (h2 : foir ≤ cfg.foir_threshold_a) :
    make_decision cfg cs foir a t y e =
      approval_response cfg a t cs foir "A" (explA cs foir) := by
  unfold make_decision
  rw [if_pos ⟨h1, h2⟩]

theorem make_decision_bandB_approve {cfg : UWConfig} {cs : ℤ} {foir a y e : ℚ} {t : ℤ}
    (hA : ¬(cs ≥ cfg.excellent_credit_score ∧ foir ≤ cfg.foir_threshold_a))
    (h1 : cs ≥ cfg.good_credit_score) (h2 : foir ≤ cfg.foir_threshold_b)
    (h3 : ¬foir > cfg.foir_threshold_a) :
    make_decision cfg cs foir a t y e =
      approval_response cfg a t cs foir "B" (explB cs foir) := by
  unfold make_decision
  rw [if_neg hA, if_pos ⟨h1, h2⟩, if_neg h3]

theorem make_decision_bandB_reject {cfg : UWConfig} {cs : ℤ} {foir a y e : ℚ} {t : ℤ}
    (hA : ¬(cs ≥ cfg.excellent_credit_score ∧ foir ≤ cfg.foir_threshold_a))
    (h1 : cs ≥ cfg.good_credit_score) (h2 : foir ≤ cfg.foir_threshold_b)
    (h3 : foir > cfg.foir_threshold_a)
    (h4 : adjusted_amount cfg t y e < cfg.min_loan_amount) :
    make_decision cfg cs foir a t y e =
      some (rejection_response cfg a t cs foir
        (explTooSmall foir (adjusted_amount cfg t y e))) := by
  unfold make_decision
  rw [if_neg hA, if_pos ⟨h1, h2⟩, if_pos h3]
  exact if_pos h4

theorem make_decision_bandB_adjust {cfg : UWConfig} {cs : ℤ} {foir a y e : ℚ} {t : ℤ}
    (hA : ¬(cs ≥ cfg.excellent_credit_score ∧ foir ≤ cfg.foir_threshold_a))
    (h1 : cs ≥ cfg.good_credit_score) (h2 : foir ≤ cfg.foir_threshold_b)
    (h3 : foir > cfg.foir_threshold_a)
    (h4 : ¬adjusted_amount cfg t y e < cfg.min_loan_amount) :
    make_decision cfg cs foir a t y e =
      adjustment_response cfg (adjusted_amount cfg t y e) t cs foir "B"
        (explAdjust cs foir (adjusted_amount cfg t y e) a) := by
  unfold make_decision
  rw [if_neg hA, if_pos ⟨h1, h2⟩, if_pos h3]
  exact if_neg h4

theorem make_decision_bandC {cfg : UWConfig} {cs : ℤ} {foir a y e : ℚ} {t : ℤ}
    (hA : ¬(cs ≥ cfg.excellent_credit_score ∧ foir ≤ cfg.foir_threshold_a))
    (hB : ¬(cs ≥ cfg.good_credit_score ∧ foir ≤ cfg.foir_threshold_b)) :
    make_decision cfg cs foir a t y e =
      some (rejection_response cfg a t cs foir (explBandC cfg cs foir)) := by
  unfold make_decision
  rw [if_neg hA, if_neg hB]

theorem evaluate_invalid {cfg : UWConfig} {p : UserProfile} {a : ℚ} {t : ℤ}
    (h : validate cfg a t (p.monthly_income.getD 0) ≠ "") :
    evaluate_application cfg p a t =
      some (rejection_response cfg a t (p.mock_credit_score.getD 650) 0
        (validate cfg a t (p.monthly_income.getD 0))) := by
  unfold evaluate_application
  rw [if_pos h]

theorem evaluate_valid {cfg : UWConfig} {p : UserProfile} {a : ℚ} {t : ℤ}
    (h : validate cfg a t (p.monthly_income.getD 0) = "") :
    evaluate_application cfg p a t =
      (calc_emi cfg a t).bind fun emi =>
        make_decision cfg (p.mock_credit_score.getD 650)
          (calc_foir (p.existing_emi.getD 0) emi (p.monthly_income.getD 0)) a t
          (p.monthly_income.getD 0) (p.existing_emi.getD 0) := by
  unfold evaluate_application
  rw [if_neg (by simp [h])]

/-- C1: for every evaluation whose request passes validation (amount within
50,000 to 5,000,000, tenure within 6 to 60 months, positive monthly
income), if the credit score is at least 720 and the computed FOIR is at
most 0.40 (both comparisons closed), `evaluate_application` returns
APPROVED with the full requested amount and risk band A. -/
theorem C1_bandA_full_approval {p : UserProfile} {a : ℚ} {t : ℤ}
    (h1 : 50000 ≤ a) (h2 : a ≤ 5000000) (h3 : 6 ≤ t) (h4 : t ≤ 60)
    (h5 : 0 < p.monthly_income.getD 0)
    (hcs : 720 ≤ p.mock_credit_score.getD 650)
    (hfoir : calc_foir (p.existing_emi.getD 0) ((calc_emi defaultConfig a t).getD 0)
      (p.monthly_income.getD 0) ≤ 2 / 5) :
    ∃ d, evaluate_application defaultConfig p a t = some d ∧
      d.decision = .APPROVED ∧ d.approved_amount = a ∧ d.risk_band = "A" := by
  unfold defaultConfig at hfoir ⊢
  have hv : validate (cfgWithRate 12) a t (p.monthly_income.getD 0) = "" :=
    validate_eq_empty h1 h2 h3 h4 h5
  obtain ⟨em, hem⟩ := calc_emi_some (R := 12) (a := a) (t := t) (by norm_num) (by omega)
  rw [hem] at hfoir
  simp only [Option.getD_some] at hfoir
  rw [evaluate_valid hv, hem]
  simp only [Option.some_bind]
  rw [make_decision_bandA (by exact hcs) (by exact hfoir)]
  unfold approval_response
  rw [hem]
  exact ⟨_, rfl, rfl, rfl, rfl⟩

/-- Witness for C1 at scenario 1 of the spec: income 75,000, existing EMI
8,000, credit score 750, request 500,000 over 36 months. -/
theorem C1_bandA_full_approval_witness :
    (0 : ℚ) < (UserProfile.mk (some 75000) (some 8000) (some 750)).monthly_income.getD 0 ∧
    calc_foir ((UserProfile.mk (some 75000) (some 8000) (some 750)).existing_emi.getD 0)
      ((calc_emi defaultConfig 500000 36).getD 0)
      ((UserProfile.mk (some 75000) (some 8000) (some 750)).monthly_income.getD 0) ≤ 2 / 5 ∧
    ∃ d, evaluate_application defaultConfig
        (UserProfile.mk (some 75000) (some 8000) (some 750)) 500000 36 = some d ∧
      d.decision = .APPROVED ∧ d.approved_amount = 500000 ∧ d.risk_band = "A" :=
  ⟨by with_unfolding_all decide, by with_unfolding_all decide,
    C1_bandA_full_approval (by norm_num) (by norm_num) (by norm_num) (by norm_num)
      (by with_unfolding_all decide) (by with_unfolding_all decide)
      (by with_unfolding_all decide)⟩

/-- C4: whenever the requested amount is below 50,000 or above 5,000,000,
or the tenure is below 6 or above 60 months, or the monthly income is
non-positive, `evaluate_application` returns (rather than raising) a
REJECTED decision with risk band C, a non-empty human-readable reason, and
zero approved amount, EMI, total payable and processing fee. -/
theorem C4_validation_rejection {p : UserProfile} {a : ℚ} {t : ℤ}
    (h : a < 50000 ∨ a > 5000000 ∨ t < 6 ∨ t > 60 ∨ p.monthly_income.getD 0 ≤ 0) :
    ∃ d, evaluate_application defaultConfig p a t = some d ∧
      d.decision = .REJECTED ∧ d.risk_band = "C" ∧ d.explanation ≠ "" ∧
      d.approved_amount = 0 ∧ d.emi = 0 ∧ d.total_payable = 0 ∧ d.processing_fee = 0 := by
  have hne : validate (cfgWithRate 12) a t (p.monthly_income.getD 0) ≠ "" := by
    intro hemp
    obtain ⟨g1, g2, g3, g4, g5⟩ := validate_empty_elim hemp
    rcases h with h | h | h | h | h <;> first | linarith | omega
  unfold defaultConfig
  rw [evaluate_invalid hne]
  exact ⟨_, rfl, rfl, rfl, hne, rfl, rfl, rfl, rfl⟩

/-- Witness for C4: a request of 1,000 (below the minimum) is rejected
with zeros and risk band C. -/
theorem C4_validation_rejection_witness :
    ((1000 : ℚ) < 50000 ∨ (1000 : ℚ) > 5000000 ∨ (36 : ℤ) < 6 ∨ (36 : ℤ) > 60 ∨
      (UserProfile.mk (some 50000) (some 0) (some 700)).monthly_income.getD 0 ≤ 0) ∧
    ∃ d, evaluate_application defaultConfig
        (UserProfile.mk (some 50000) (some 0) (some 700)) 1000 36 = some d ∧
      d.decision = .REJECTED ∧ d.risk_band = "C" ∧ d.explanation ≠ "" ∧
      d.approved_amount = 0 ∧ d.emi = 0 ∧ d.total_payable = 0 ∧ d.processing_fee = 0 :=
  ⟨Or.inl (by norm_num),
    C4_validation_rejection (Or.inl (by norm_num))⟩

/-- C10: when the profile lacks a credit-score field the engine substitutes
the default 650, and since 650 is below the good-credit threshold 680,
every such evaluation that passes validation is REJECTED — the APPROVED
and ADJUST branches are unreachable. -/
theorem C10_missing_credit_score_rejected {p : UserProfile} {a : ℚ} {t : ℤ}
    (hcs : p.mock_credit_score = none)
    (hv : validate defaultConfig a t (p.monthly_income.getD 0) = "") :
    ∃ d, evaluate_application defaultConfig p a t = some d ∧
      d.credit_score = 650 ∧ d.decision = .REJECTED := by
  unfold defaultConfig at hv ⊢
  obtain ⟨g1, g2, g3, g4, g5⟩ := validate_empty_elim hv
  obtain ⟨em, hem⟩ := calc_emi_some (R := 12) (a := a) (t := t) (by norm_num) (by omega)
  rw [evaluate_valid hv, hem]
  simp only [Option.some_bind, hcs, Option.getD_none]
  rw [make_decision_bandC (by rintro ⟨hbad, -⟩; revert hbad; with_unfolding_all decide)
    (by rintro ⟨hbad, -⟩; revert hbad; with_unfolding_all decide)]
  exact ⟨_, rfl, rfl, rfl⟩

/-- Witness for C10: a profile without a credit score requesting 500,000
over 36 months with income 75,000 is rejected with the default score 650. -/
theorem C10_missing_credit_score_rejected_witness :
    (UserProfile.mk (some 75000) (some 8000) none).mock_credit_score = none ∧
    validate defaultConfig 500000 36
      ((UserProfile.mk (some 75000) (some 8000) none).monthly_income.getD 0) = "" ∧
    ∃ d, evaluate_application defaultConfig
        (UserProfile.mk (some 75000) (some 8000) none) 500000 36 = some d ∧
      d.credit_score = 650 ∧ d.decision = .REJECTED :=
  ⟨rfl, by with_unfolding_all rfl,
    C10_missing_credit_score_rejected rfl (by with_unfolding_all rfl)⟩

/-- C8: FOIR equals the ratio of total obligations to income rounded to 3
decimals when income is positive, equals 1.0 when income is non-positive,
and — holding the other inputs fixed — is monotone non-decreasing in the
existing EMI and, through the EMI of the requested amount, in the
requested amount. -/
theorem C8_foir_formula_monotone :
    (∀ e em y : ℚ, 0 < y → calc_foir e em y = round3 ((e + em) / y)) ∧
    (∀ e em y : ℚ, y ≤ 0 → calc_foir e em y = 1) ∧
    (∀ e1 e2 em y : ℚ, e1 ≤ e2 → calc_foir e1 em y ≤ calc_foir e2 em y) ∧
    (∀ e y : ℚ, ∀ t : ℤ, 0 < t → ∀ a1 a2 : ℚ, a1 ≤ a2 →
      calc_foir e ((calc_emi defaultConfig a1 t).getD 0) y ≤
        calc_foir e ((calc_emi defaultConfig a2 t).getD 0) y) := by
  refine ⟨?_, ?_, ?_, ?_⟩
  · intro e em y hy
    unfold calc_foir
    rw [if_neg (not_le.mpr hy)]
  · intro e em y hy
    unfold calc_foir
    rw [if_pos hy]
  · intro e1 e2 em y h
    unfold calc_foir
    split_ifs with hy
    · exact le_refl _
    · exact round3_mono
        (div_le_div_of_nonneg_right (by linarith) (le_of_lt (not_le.mp hy)))
  · intro e y t ht a1 a2 h
    have hm := calc_emi_default_mono ht h
    unfold calc_foir
    split_ifs with hy
    · exact le_refl _
    · exact round3_mono
        (div_le_div_of_nonneg_right (by linarith) (le_of_lt (not_le.mp hy)))

/-- Witness for C8 at a concrete instance of the requested-amount
monotonicity part: tenure 36, amounts 500,000 and 600,000, existing EMI
8,000, income 75,000. -/
theorem C8_foir_formula_monotone_witness :
    (0 : ℤ) < 36 ∧ (500000 : ℚ) ≤ 600000 ∧
    calc_foir 8000 ((calc_emi defaultConfig 500000 36).getD 0) 75000 ≤
      calc_foir 8000 ((calc_emi defaultConfig 600000 36).getD 0) 75000 :=
  ⟨by norm_num, by norm_num,
    C8_foir_formula_monotone.2.2.2 8000 75000 36 (by norm_num) 500000 600000 (by norm_num)⟩

theorem cfgWithRate_foir_a (R : ℚ) : (cfgWithRate R).foir_threshold_a = 2 / 5 := rfl

theorem cfgWithRate_foir_b (R : ℚ) : (cfgWithRate R).foir_threshold_b = 1 / 2 := rfl

theorem cfgWithRate_good (R : ℚ) : (cfgWithRate R).good_credit_score = 680 := rfl

theorem cfgWithRate_excellent (R : ℚ) : (cfgWithRate R).excellent_credit_score = 720 := rfl

theorem cfgWithRate_min (R : ℚ) : (cfgWithRate R).min_loan_amount = 50000 := rfl

/-- C2: for an evaluation that passes validation with credit score at
least 680 and computed FOIR strictly above 0.40 and at most 0.50, the
engine computes the affordable principal by the inverted amortization
formula applied to `maxEmi = income * 0.40 - existing_emi` (times the
tenure when the monthly rate is zero), returns REJECTED when that
principal is below the minimum loan amount and otherwise ADJUST with that
principal, risk band B, and an explanation mentioning both the offered
and the requested amounts. -/
theorem C2_bandB_adjustment {R a y e em : ℚ} {cs t : ℤ}
    (hR : 0 ≤ R)
    (h1 : 50000 ≤ a) (h2 : a ≤ 5000000) (h3 : 6 ≤ t) (h4 : t ≤ 60) (h5 : 0 < y)
    (hcs : 680 ≤ cs)
    (hem : calc_emi (cfgWithRate R) a t = some em)
    (hf1 : 2 / 5 < calc_foir e em y) (hf2 : calc_foir e em y ≤ 1 / 2) :
    adjusted_amount (cfgWithRate R) t y e =
      round2 (if R / 12 / 100 > 0 then
          (y * (2 / 5) - e) * ((1 + R / 12 / 100) ^ t - 1) /
            (R / 12 / 100 * (1 + R / 12 / 100) ^ t)
        else (y * (2 / 5) - e) * (t : ℚ)) ∧
    ∃ d, evaluate_application (cfgWithRate R) ⟨some y, some e, some cs⟩ a t = some d ∧
      (adjusted_amount (cfgWithRate R) t y e < 50000 → d.decision = .REJECTED) ∧
      (50000 ≤ adjusted_amount (cfgWithRate R) t y e →
        d.decision = .ADJUST ∧
        d.approved_amount = adjusted_amount (cfgWithRate R) t y e ∧
        d.risk_band = "B" ∧
        ∃ s1 s2 s3, d.explanation =
          s1 ++ fmtMoney (adjusted_amount (cfgWithRate R) t y e) ++ s2 ++ fmtMoney a ++ s3) := by
  refine ⟨rfl, ?_⟩
  have hv : validate (cfgWithRate R) a t y = "" := validate_eq_empty h1 h2 h3 h4 h5
  rw [evaluate_valid (p := ⟨some y, some e, some cs⟩) hv, hem]
  simp only [Option.some_bind, Option.getD_some]
  have hA : ¬(cs ≥ (cfgWithRate R).excellent_credit_score ∧
      calc_foir e em y ≤ (cfgWithRate R).foir_threshold_a) := by
    rintro ⟨-, hle⟩
    rw [cfgWithRate_foir_a] at hle
    linarith
  have hB1 : cs ≥ (cfgWithRate R).good_credit_score := by
    rw [ge_iff_le, cfgWithRate_good]; exact hcs
  have hB2 : calc_foir e em y ≤ (cfgWithRate R).foir_threshold_b := by
    rw [cfgWithRate_foir_b]; exact hf2
  have hB3 : calc_foir e em y > (cfgWithRate R).foir_threshold_a := by
    rw [gt_iff_lt, cfgWithRate_foir_a]; exact hf1
  by_cases hadj : adjusted_amount (cfgWithRate R) t y e < (cfgWithRate R).min_loan_amount
  · rw [make_decision_bandB_reject hA hB1 hB2 hB3 hadj]
    refine ⟨_, rfl, fun _ => rfl, fun h50 => absurd hadj ?_⟩
    rw [cfgWithRate_min]
    linarith
  · rw [make_decision_bandB_adjust hA hB1 hB2 hB3 hadj]
    obtain ⟨em2, hem2⟩ := calc_emi_some (R := R)
      (a := adjusted_amount (cfgWithRate R) t y e) (t := t) hR (by omega)
    unfold adjustment_response
    rw [hem2]
    simp only [Option.map_some']
    refine ⟨_, rfl, ?_, ?_⟩
    · intro hlt
      rw [cfgWithRate_min] at hadj
      exact absurd hlt hadj
    · intro h50
      refine ⟨rfl, rfl, rfl,
        "Approved with adjustment! Your credit score (" ++ toString cs ++
          ") is good, but your FOIR (" ++ pct1 (calc_foir e em y) ++
          ") is slightly high. We can approve ₹", " instead of ₹",
        " to maintain healthy FOIR. Risk Band: B.", ?_⟩
      simp [explAdjust, String.append_assoc]

/-- Witness for C2 at scenario 2 of the spec: income 50,000, existing EMI
12,000, credit score 680, request 300,000 over 36 months at the default
rate 12, whose computed FOIR lies strictly between 0.40 and 0.50. -/
theorem C2_bandB_adjustment_witness :
    calc_emi (cfgWithRate 12) 300000 36 =
      some ((calc_emi (cfgWithRate 12) 300000 36).getD 0) ∧
    2 / 5 < calc_foir 12000 ((calc_emi (cfgWithRate 12) 300000 36).getD 0) 50000 ∧
    calc_foir 12000 ((calc_emi (cfgWithRate 12) 300000 36).getD 0) 50000 ≤ 1 / 2 ∧
    (adjusted_amount (cfgWithRate 12) 36 50000 12000 =
      round2 (if (12 : ℚ) / 12 / 100 > 0 then
          ((50000 : ℚ) * (2 / 5) - 12000) * ((1 + 12 / 12 / 100) ^ (36 : ℤ) - 1) /
            (12 / 12 / 100 * (1 + 12 / 12 / 100) ^ (36 : ℤ))
        else ((50000 : ℚ) * (2 / 5) - 12000) * ((36 : ℤ) : ℚ)) ∧
    ∃ d, evaluate_application (cfgWithRate 12) ⟨some 50000, some 12000, some 680⟩
        300000 36 = some d ∧
      (adjusted_amount (cfgWithRate 12) 36 50000 12000 < 50000 →
        d.decision = .REJECTED) ∧
      (50000 ≤ adjusted_amount (cfgWithRate 12) 36 50000 12000 →
        d.decision = .ADJUST ∧
        d.approved_amount = adjusted_amount (cfgWithRate 12) 36 50000 12000 ∧
        d.risk_band = "B" ∧
        ∃ s1 s2 s3, d.explanation =
          s1 ++ fmtMoney (adjusted_amount (cfgWithRate 12) 36 50000 12000) ++ s2 ++
            fmtMoney 300000 ++ s3)) :=
  ⟨by with_unfolding_all rfl, by with_unfolding_all decide, by with_unfolding_all decide,
    C2_bandB_adjustment (by norm_num) (by norm_num) (by norm_num) (by norm_num)
      (by norm_num) (by norm_num) (by norm_num) (by with_unfolding_all rfl)
      (by with_unfolding_all decide) (by with_unfolding_all decide)⟩

theorem adjusted_le_requested {a y e em : ℚ} {t : ℤ}
    (ht : 6 ≤ t) (ha : 50000 ≤ a) (hy : 0 < y) (he : 0 ≤ e)
    (hem : em = round2 (a * (1 / 100) * (101 / 100) ^ t / ((101 / 100) ^ t - 1)))
    (hf1 : 2 / 5 < calc_foir e em y) (hf2 : calc_foir e em y ≤ 1 / 2) :
    adjusted_amount (cfgWithRate 12) t y e ≤ a := by
  have hq1 : (1 : ℚ) < (101 / 100) ^ t := one_lt_zpow₀ (by norm_num) (by omega)
  have hq0 : (0 : ℚ) < (101 / 100) ^ t := by linarith
  set q : ℚ := (101 / 100) ^ t with hqdef
  set c : ℚ := 1 / 100 * q / (q - 1) with hcdef
  have hcgt : 1 / 100 < c := by
    rw [hcdef, lt_div_iff (by linarith)]
    linarith
  have hcpos : (0 : ℚ) < c := by linarith
  have hem' : em = round2 (a * c) := by
    rw [hem, hcdef]
    congr 1
    ring
  have hub : em ≤ a * c + 1 / 200 := by
    rw [hem']
    linarith [round2_le (a * c)]
  have hlb : a * c - 1 / 200 ≤ em := by
    rw [hem']
    linarith [round2_ge (a * c)]
  have hfoir_eq : calc_foir e em y = round3 ((e + em) / y) := by
    unfold calc_foir
    rw [if_neg (not_le.mpr hy)]
  rw [hfoir_eq] at hf1 hf2
  have hs1 : 801 / 2000 ≤ (e + em) / y := by
    unfold round3 at hf1
    have h400 : (400 : ℤ) < rhe ((e + em) / y * 1000) := by
      by_contra hle
      push_neg at hle
      have hc400 : ((rhe ((e + em) / y * 1000) : ℤ) : ℚ) ≤ 400 := by exact_mod_cast hle
      linarith
    have h401 : (401 : ℚ) ≤ ((rhe ((e + em) / y * 1000) : ℤ) : ℚ) := by exact_mod_cast h400
    linarith [rhe_le ((e + em) / y * 1000)]
  have hs2 : (e + em) / y ≤ 1001 / 2000 := by
    unfold round3 at hf2
    have h500 : rhe ((e + em) / y * 1000) ≤ 500 := by
      by_contra hgt
      push_neg at hgt
      have h501 : (501 : ℚ) ≤ ((rhe ((e + em) / y * 1000) : ℤ) : ℚ) := by exact_mod_cast hgt
      linarith
    have h500c : ((rhe ((e + em) / y * 1000) : ℤ) : ℚ) ≤ 500 := by exact_mod_cast h500
    linarith [rhe_ge ((e + em) / y * 1000)]
  have ht1 : 801 / 2000 * y ≤ e + em := (le_div_iff hy).mp hs1
  have ht2 : e + em ≤ 1001 / 2000 * y := (div_le_iff hy).mp hs2
  have hac : 50000 * c ≤ a * c := mul_le_mul_of_nonneg_right ha (le_of_lt hcpos)
  have hmain : y * (2 / 5) - e ≤ (a - 1 / 200) * c := by
    nlinarith [ht1, ht2, hub, hlb, hac, hcgt, he, hy]
  have hdiv : (y * (2 / 5) - e) * (q - 1) / (1 / 100 * q) ≤ a - 1 / 200 := by
    rw [div_le_iff (mul_pos (by norm_num : (0 : ℚ) < 1 / 100) hq0)]
    have h2 := mul_le_mul_of_nonneg_right hmain
      (le_of_lt (show (0 : ℚ) < q - 1 by linarith))
    have hqne : q - 1 ≠ 0 := ne_of_gt (by linarith)
    have h3 : (a - 1 / 200) * c * (q - 1) = (a - 1 / 200) * (1 / 100 * q) := by
      rw [hcdef]
      field_simp
      ring
    linarith [h2, h3]
  have hr12 : monthlyRate (cfgWithRate 12) = 1 / 100 := by
    rw [monthlyRate_cfgWithRate]
    norm_num
  have hexpr : adjusted_amount (cfgWithRate 12) t y e =
      round2 ((y * (2 / 5) - e) * (q - 1) / (1 / 100 * q)) := by
    show round2 (if monthlyRate (cfgWithRate 12) > 0 then
        (y * (cfgWithRate 12).foir_threshold_a - e) *
          ((1 + monthlyRate (cfgWithRate 12)) ^ t - 1) /
          (monthlyRate (cfgWithRate 12) * (1 + monthlyRate (cfgWithRate 12)) ^ t)
      else (y * (cfgWithRate 12).foir_threshold_a - e) * (t : ℚ)) = _
    rw [hr12, cfgWithRate_foir_a, if_pos (by norm_num : (0 : ℚ) < 1 / 100)]
    norm_num [hqdef]
  rw [hexpr]
  linarith [round2_le ((y * (2 / 5) - e) * (q - 1) / (1 / 100 * q)), hdiv]

/-- C3: for every profile with a non-negative existing EMI and every
non-negative requested amount (with arbitrary tenure, income and credit
score), `evaluate_application` returns a decision, its outcome is exactly
one of APPROVED, ADJUST or REJECTED, its approved amount never exceeds the
requested amount, and a REJECTED decision grants 0. -/
theorem C3_decision_totality_and_bound {p : UserProfile} {a : ℚ} {t : ℤ}
    (ha : 0 ≤ a) (he : 0 ≤ p.existing_emi.getD 0) :
    ∃ d, evaluate_application defaultConfig p a t = some d ∧
      (d.decision = .APPROVED ∨ d.decision = .ADJUST ∨ d.decision = .REJECTED) ∧
      d.approved_amount ≤ a ∧
      (d.decision = .REJECTED → d.approved_amount = 0) := by
  by_cases hv : validate defaultConfig a t (p.monthly_income.getD 0) = ""
  · obtain ⟨g1, g2, g3, g4, g5⟩ := validate_empty_elim (R := 12) hv
    have ht0 : (0 : ℤ) < t := by omega
    have hemeq := calc_emi_default_eq (a := a) (t := t) ht0
    rw [evaluate_valid hv, hemeq]
    simp only [Option.some_bind]
    set em : ℚ := round2 (a * (1 / 100) * (101 / 100) ^ t / ((101 / 100) ^ t - 1))
      with hemv
    set cs : ℤ := p.mock_credit_score.getD 650
    set y : ℚ := p.monthly_income.getD 0
    set e : ℚ := p.existing_emi.getD 0
    set F : ℚ := calc_foir e em y with hF
    by_cases hA : cs ≥ defaultConfig.excellent_credit_score ∧ F ≤ defaultConfig.foir_threshold_a
    · rw [make_decision_bandA hA.1 hA.2]
      unfold approval_response
      rw [hemeq]
      simp only [Option.map_some']
      exact ⟨_, rfl, Or.inl rfl, le_refl a, fun hbad => Outcome.noConfusion hbad⟩
    · by_cases hB : cs ≥ defaultConfig.good_credit_score ∧ F ≤ defaultConfig.foir_threshold_b
      · by_cases hgt : F > defaultConfig.foir_threshold_a
        · by_cases hadj : adjusted_amount defaultConfig t y e < defaultConfig.min_loan_amount
          · rw [make_decision_bandB_reject hA hB.1 hB.2 hgt hadj]
            exact ⟨_, rfl, Or.inr (Or.inr rfl), ha, fun _ => rfl⟩
          · rw [make_decision_bandB_adjust hA hB.1 hB.2 hgt hadj]
            unfold adjustment_response
            have hem2 := calc_emi_default_eq
              (a := adjusted_amount defaultConfig t y e) (t := t) ht0
            rw [hem2]
            simp only [Option.map_some']
            have hle : adjusted_amount defaultConfig t y e ≤ a := by
              have hx1 : (2 : ℚ) / 5 < F := hgt
              have hx2 : F ≤ 1 / 2 := hB.2
              exact adjusted_le_requested g3 g1 g5 he hemv hx1 hx2
            exact ⟨_, rfl, Or.inr (Or.inl rfl), hle, fun hbad => Outcome.noConfusion hbad⟩
        · rw [make_decision_bandB_approve hA hB.1 hB.2 hgt]
          unfold approval_response
          rw [hemeq]
          simp only [Option.map_some']
          exact ⟨_, rfl, Or.inl rfl, le_refl a, fun hbad => Outcome.noConfusion hbad⟩
      · rw [make_decision_bandC hA hB]
        exact ⟨_, rfl, Or.inr (Or.inr rfl), ha, fun _ => rfl⟩
  · rw [evaluate_invalid hv]
    exact ⟨_, rfl, Or.inr (Or.inr rfl), ha, fun _ => rfl⟩

/-- Witness for C3 at scenario 2 of the spec, an input reaching the ADJUST
branch: income 50,000, existing EMI 12,000, credit score 680, request
300,000 over 36 months. -/
theorem C3_decision_totality_and_bound_witness :
    (0 : ℚ) ≤ 300000 ∧
    (0 : ℚ) ≤ (UserProfile.mk (some 50000) (some 12000) (some 680)).existing_emi.getD 0 ∧
    ∃ d, evaluate_application defaultConfig
        (UserProfile.mk (some 50000) (some 12000) (some 680)) 300000 36 = some d ∧
      (d.decision = .APPROVED ∨ d.decision = .ADJUST ∨ d.decision = .REJECTED) ∧
      d.approved_amount ≤ 300000 ∧
      (d.decision = .REJECTED → d.approved_amount = 0) :=
  ⟨by norm_num, by with_unfolding_all decide,
    C3_decision_totality_and_bound (by norm_num) (by with_unfolding_all decide)⟩

/-- C5 counterexample: the claim says the EMI calculator fails for every
negative principal, but at principal -100,000 and tenure 12 it succeeds
and returns a value. -/
theorem C5_counterexample :
    (-100000 : ℚ) < 0 ∧ (calc_emi defaultConfig (-100000) 12).isSome = true :=
  ⟨by norm_num, by with_unfolding_all decide⟩

/-- C5 amended: the EMI calculator has no domain guard; at the default
rate it fails (by division by zero) exactly when the tenure is 0, and for
every other input — negative principal and negative tenure included — it
returns a rounded value. -/
theorem C5_amended_no_domain_guard (p : ℚ) (t : ℤ) :
    calc_emi defaultConfig p t = none ↔ t = 0 := by
  have h1 : monthlyRate defaultConfig ≠ 0 := by
    rw [monthlyRate_default]
    norm_num
  unfold calc_emi
  rw [if_neg h1, monthlyRate_default]
  constructor
  · intro h
    by_contra ht
    have hq : (1 + 1 / 100 : ℚ) ^ t - 1 ≠ 0 := by
      have hne : ((1 : ℚ) + 1 / 100) ^ t ≠ 1 := by
        intro heq
        exact ht ((zpow_eq_one_iff_right₀ (by norm_num) (by norm_num)).mp heq)
      exact sub_ne_zero.mpr hne
    rw [if_neg hq] at h
    exact Option.some_ne_none _ h
  · intro ht
    subst ht
    norm_num

/-- Witness for C5 amended at tenure 0: the calculator raises
(division by zero). -/
theorem C5_amended_no_domain_guard_witness :
    calc_emi defaultConfig 100 0 = none :=
  (C5_amended_no_domain_guard 100 0).mpr rfl

/-- C9: on the text "5 lakh for 24 months" the extractor yields amount
500,000 (lakh multiplier applied: first digit run "5" is below 1000 and
"lakh" occurs) and tenure 24; in general the amount is the first run of
digits of the comma-stripped text, multiplied by 100,000 exactly when
"lakh" occurs in the lowercased text and the parsed number is below 1000
— never multiplied when the run is at least 1000 or "lakh" is absent. -/
theorem extractTerms_eq {s : String} {n m : ℕ}
    (hrun : firstDigitRunNat (stripCommas s).data = some n)
    (htn : tenureScan (strLower s).data = some m) :
    extractTerms s =
      some ((if strContains (strLower s) "lakh" = true ∧ ((n : ℚ)) < 1000
        then ((n : ℚ)) * 100000 else ((n : ℚ))), ((m : ℕ) : ℤ)) := by
  simp only [extractTerms]
  rw [hrun, htn]

theorem C9_amount_extraction :
    extractTerms "5 lakh for 24 months" = some (500000, 24) ∧
    (∀ (s : String) (n : ℕ), firstDigitRunNat (stripCommas s).data = some n →
      (1000 : ℚ) ≤ (n : ℚ) →
      ∀ am tn, extractTerms s = some (am, tn) → am = (n : ℚ)) ∧
    (∀ (s : String) (n : ℕ), firstDigitRunNat (stripCommas s).data = some n →
      (n : ℚ) < 1000 → strContains (strLower s) "lakh" = true →
      ∀ am tn, extractTerms s = some (am, tn) → am = (n : ℚ) * 100000) ∧
    (∀ (s : String) (n : ℕ), firstDigitRunNat (stripCommas s).data = some n →
      strContains (strLower s) "lakh" = false →
      ∀ am tn, extractTerms s = some (am, tn) → am = (n : ℚ)) := by
  have hpart1 : extractTerms "5 lakh for 24 months" = some (500000, 24) := by
    rw [extractTerms_eq (n := 5) (m := 24) (by decide) (by decide),
      if_pos ⟨by decide, by norm_num⟩]
    norm_num
  refine ⟨hpart1, ?_, ?_, ?_⟩
  · intro s n hrun hge am tn heq
    simp only [extractTerms] at heq
    rw [hrun] at heq
    cases htn : tenureScan (strLower s).data with
    | none => rw [htn] at heq; exact absurd heq (by simp)
    | some t0 =>
      rw [htn] at heq
      have heq2 : some ((if strContains (strLower s) "lakh" = true ∧ ((n : ℚ)) < 1000
          then ((n : ℚ)) * 100000 else ((n : ℚ))), ((t0 : ℕ) : ℤ)) = some (am, tn) := heq
      rw [if_neg (by rintro ⟨-, hlt⟩; linarith)] at heq2
      simp only [Option.some.injEq, Prod.mk.injEq] at heq2
      exact heq2.1.symm
  · intro s n hrun hlt hlakh am tn heq
    simp only [extractTerms] at heq
    rw [hrun] at heq
    cases htn : tenureScan (strLower s).data with
    | none => rw [htn] at heq; exact absurd heq (by simp)
    | some t0 =>
      rw [htn] at heq
      have heq2 : some ((if strContains (strLower s) "lakh" = true ∧ ((n : ℚ)) < 1000
          then ((n : ℚ)) * 100000 else ((n : ℚ))), ((t0 : ℕ) : ℤ)) = some (am, tn) := heq
      rw [if_pos ⟨hlakh, hlt⟩] at heq2
      simp only [Option.some.injEq, Prod.mk.injEq] at heq2
      exact heq2.1.symm
  · intro s n hrun hlakh am tn heq
    simp only [extractTerms] at heq
    rw [hrun] at heq
    cases htn : tenureScan (strLower s).data with
    | none => rw [htn] at heq; exact absurd heq (by simp)
    | some t0 =>
      rw [htn] at heq
      have heq2 : some ((if strContains (strLower s) "lakh" = true ∧ ((n : ℚ)) < 1000
          then ((n : ℚ)) * 100000 else ((n : ℚ))), ((t0 : ℕ) : ℤ)) = some (am, tn) := heq
      rw [if_neg (by rintro ⟨hbad, -⟩; rw [hlakh] at hbad; exact Bool.noConfusion hbad)]
        at heq2
      simp only [Option.some.injEq, Prod.mk.injEq] at heq2
      exact heq2.1.symm

set_option maxRecDepth 100000 in
/-- Witness for C9 part 2: the text "I need ₹5,00,000 for 36 months" has
first digit run 500000 (at least 1000 after comma stripping), so the lakh
multiplier does not apply. -/
theorem C9_amount_extraction_witness :
    firstDigitRunNat (stripCommas "I need ₹5,00,000 for 36 months").data = some 500000 ∧
    extractTerms "I need ₹5,00,000 for 36 months" = some (500000, 36) ∧
    (500000 : ℚ) = ((500000 : ℕ) : ℚ) := by
  have hrun : firstDigitRunNat (stripCommas "I need ₹5,00,000 for 36 months").data =
      some 500000 := by decide
  have hext : extractTerms "I need ₹5,00,000 for 36 months" = some (500000, 36) := by
    rw [extractTerms_eq (m := 36) hrun (by decide),
      if_neg (by rintro ⟨-, hlt⟩; norm_num at hlt)]
    norm_num
  exact ⟨hrun, hext,
    C9_amount_extraction.2.1 "I need ₹5,00,000 for 36 months" 500000 hrun
      (by norm_num) 500000 36 hext⟩

theorem state1Result_createInvoked {env : Env} {msg lower : String} {r : ProcResult}
    (h : state1Result env msg lower = some r) : r.createInvoked = false := by
  unfold state1Result at h
  repeat' split at h
  · exact absurd h (by simp)
  · exact absurd h (by simp)
  · exact absurd h (by simp)
  · cases Option.some.inj h
    rfl
  · cases Option.some.inj h
    rfl
  · exact absurd h (by simp)
  · exact absurd h (by simp)
  · exact absurd h (by simp)

theorem stateTwoResult_createInvoked {env : Env} {s : SessionState} {lower : String}
    (h : (stateTwoResult env s lower).createInvoked = true) :
    ∃ d, s.loan_decision = some d ∧
      (d.decision = .APPROVED ∨ d.decision = .ADJUST) := by
  unfold stateTwoResult at h
  split at h
  · cases hd : s.loan_decision with
    | none =>
      rw [hd] at h
      simp at h
    | some d =>
      rw [hd] at h
      by_cases hdec : d.decision = .APPROVED ∨ d.decision = .ADJUST
      · exact ⟨d, rfl, hdec⟩
      · simp only [hdec, if_false] at h
        simp at h
  · exact absurd h (by simp)

theorem stateTwoResult_writes (env : Env) (s : SessionState) (lower : String) :
    (stateTwoResult env s lower).writes = [] := by
  unfold stateTwoResult
  repeat' split
  all_goals rfl

theorem stateTwoResult_reply (env : Env) (s : SessionState) (lower : String) :
    (stateTwoResult env s lower).reply = welcomeReply ∨
      ∃ pl, env.createRes = some pl ∧
        (stateTwoResult env s lower).reply = sanctionReply pl := by
  unfold stateTwoResult
  repeat' split
  all_goals first | (left; rfl) | (right; exact ⟨_, by assumption, rfl⟩)

/-- C6: in every reachable state and for every message, the
loan-application-creation collaborator is invoked only when the session
already holds a stored decision whose outcome is APPROVED or ADJUST; and
an acceptance message "yes" in a session with no stored decision yields
the default welcome reply and no creation call. -/
theorem C6_sanction_only_after_decision :
    (∀ (env : Env) (msg : String), (process env msg).createInvoked = true →
      ∃ sess d, env.getSession = some (some sess) ∧ sess.loan_decision = some d ∧
        (d.decision = .APPROVED ∨ d.decision = .ADJUST)) ∧
    process ⟨some (some ⟨none, "WELCOME"⟩), some true, none, true, true, none⟩ "yes" =
      ⟨welcomeReply, none, none, false, []⟩ := by
  constructor
  · intro env msg hinv
    unfold process at hinv
    cases hg : env.getSession with
    | none =>
      rw [hg] at hinv
      exact absurd hinv (by simp)
    | some so =>
      rw [hg] at hinv
      have hinv1 : (match state1Result env msg (strLower msg) with
          | some res => res
          | none => stateTwoResult env (so.getD ⟨none, ""⟩) (strLower msg)).createInvoked
          = true := hinv
      cases hs : state1Result env msg (strLower msg) with
      | some r =>
        rw [hs] at hinv1
        have hinv2 : r.createInvoked = true := hinv1
        have hfalse := state1Result_createInvoked hs
        rw [hfalse] at hinv2
        exact Bool.noConfusion hinv2
      | none =>
        rw [hs] at hinv1
        have hinv2 : (stateTwoResult env (so.getD ⟨none, ""⟩) (strLower msg)).createInvoked
            = true := hinv1
        obtain ⟨d, hd, hout⟩ := stateTwoResult_createInvoked hinv2
        cases so with
        | none => simp at hd
        | some sess => exact ⟨sess, d, rfl, hd, hout⟩
  · with_unfolding_all rfl

/-- Witness for C6 at an environment whose session stores an APPROVED
decision and whose message is "yes": the creation collaborator is invoked
and the stored decision is APPROVED. -/
theorem C6_sanction_only_after_decision_witness :
    (process
      ⟨some (some ⟨some ⟨.APPROVED, 500000, 36, 16607, 12, 750, 328 / 1000, "A", "x",
          597852, 10000⟩, "APPROVED"⟩),
        some true, none, true, true, some ⟨"L1", 500000, 16607, 36⟩⟩
      "yes").createInvoked = true ∧
    ∃ sess d,
      (⟨some (some ⟨some ⟨.APPROVED, 500000, 36, 16607, 12, 750, 328 / 1000, "A", "x",
          597852, 10000⟩, "APPROVED"⟩),
        some true, none, true, true, some ⟨"L1", 500000, 16607, 36⟩⟩ : Env).getSession =
        some (some sess) ∧
      sess.loan_decision = some d ∧
      (d.decision = .APPROVED ∨ d.decision = .ADJUST) :=
  ⟨by with_unfolding_all rfl,
    C6_sanction_only_after_decision.1
      ⟨some (some ⟨some ⟨.APPROVED, 500000, 36, 16607, 12, 750, 328 / 1000, "A", "x",
          597852, 10000⟩, "APPROVED"⟩),
        some true, none, true, true, some ⟨"L1", 500000, 16607, 36⟩⟩
      "yes" (by with_unfolding_all rfl)⟩

set_option maxRecDepth 100000 in
/-- C7 counterexample: with the session read succeeding, the profile
found, and the underwriting engine raising (as it always does in the
source, where `evaluate_loan` is absent), a message carrying loan terms
produces the default welcome reply, not the generic apology the claim
requires. -/
theorem C7_counterexample :
    (⟨some (some ⟨none, "WELCOME"⟩), some true, none, true, true, none⟩ : Env).engineRes
      = none ∧
    extractTerms "I need 500000 for 36 months" = some (500000, 36) ∧
    process ⟨some (some ⟨none, "WELCOME"⟩), some true, none, true, true, none⟩
      "I need 500000 for 36 months" = ⟨welcomeReply, none, none, false, []⟩ ∧
    welcomeReply ≠ apologyReply := by
  have hext : extractTerms "I need 500000 for 36 months" = some (500000, 36) := by
    rw [extractTerms_eq (n := 500000) (m := 36) (by decide) (by decide),
      if_neg (by rintro ⟨-, hlt⟩; norm_num at hlt)]
    norm_num
  refine ⟨rfl, hext, by with_unfolding_all rfl, ?_⟩
  intro h
  exact absurd (congrArg String.length h) (by decide)

/-- C7 amended: no collaborator exception ever propagates. When the
session read raises, the machine returns the generic apology with no
session write. When the underwriting engine raises (or the profile lookup
fails, or the underwriting tool fails internally), the tool converts the
failure into a failure result and the machine leaves the session unchanged
and falls through to the acceptance handling, replying with the default
welcome (or, when an acceptance word matches a stored approved decision,
the sanction reply) — not the apology. -/
theorem C7_amended_failure_semantics :
    (∀ (env : Env) (msg : String), env.getSession = none →
      process env msg = ⟨apologyReply, none, none, false, []⟩) ∧
    (∀ (env : Env) (msg : String) (so : Option SessionState),
      env.getSession = some so → env.engineRes = none →
      (process env msg).writes = [] ∧
      ((process env msg).reply = welcomeReply ∨
        ∃ pl, env.createRes = some pl ∧ (process env msg).reply = sanctionReply pl)) := by
  constructor
  · intro env msg hg
    unfold process
    rw [hg]
  · intro env msg so hg heng
    have hs1 : state1Result env msg (strLower msg) = none := by
      unfold state1Result
      split
      · cases hx : extractTerms msg with
        | none => rfl
        | some pr =>
          cases hpf : env.profileFound with
          | none => rfl
          | some b =>
            cases b
            · rfl
            · rw [heng]
      · rfl
    have hp : process env msg = stateTwoResult env (so.getD ⟨none, ""⟩) (strLower msg) := by
      unfold process
      rw [hg]
      show (match state1Result env msg (strLower msg) with
        | some res => res
        | none => stateTwoResult env (so.getD ⟨none, ""⟩) (strLower msg)) =
          stateTwoResult env (so.getD ⟨none, ""⟩) (strLower msg)
      rw [hs1]
    rw [hp]
    exact ⟨stateTwoResult_writes env (so.getD ⟨none, ""⟩) (strLower msg),
      stateTwoResult_reply env (so.getD ⟨none, ""⟩) (strLower msg)⟩

/-- Witness for C7 amended, part 1: a raised session read yields the
apology result with no session write. -/
theorem C7_amended_failure_semantics_witness :
    (⟨none, some true, none, true, true, none⟩ : Env).getSession = none ∧
    process ⟨none, some true, none, true, true, none⟩ "hello" =
      ⟨apologyReply, none, none, false, []⟩ :=
  ⟨rfl, C7_amended_failure_semantics.1 ⟨none, some true, none, true, true, none⟩
    "hello" rfl⟩
